import Mathlib

/-!
Verification of the travara travel-planner orchestration layer.

The definitions below are a shallow embedding of the Python sources:
`app.py` (service registry, orchestrator, itinerary formatter),
`openai_service.py` and `ollama_service.py` (the two LLM provider
clients), `places_service.py` (geo enrichment) and `weather_service.py`
(weather client).  External HTTP calls are modelled by explicit outcome
values passed in as parameters; Python string operations are modelled by
kernel-computable functions on `List Char`, and dictionary `.get`
defaults by `Option` fields.
-/

namespace Travara

/-! ## Python string primitives on `List Char` -/

/-- `leadsWith pat l` : Python `l.startswith(pat)`. -/
def leadsWith : List Char → List Char → Bool
  | [], _ => true
  | _ :: _, [] => false
  | p :: ps, c :: cs => p = c && leadsWith ps cs

/-- `subOccurs pat l` : Python `pat in l` (contiguous substring test). -/
def subOccurs (pat : List Char) : List Char → Bool
  | [] => leadsWith pat []
  | c :: cs => leadsWith pat (c :: cs) || subOccurs pat cs

/-- Python `pat in s` on whole strings. -/
def containsSub (s pat : String) : Bool := subOccurs pat.toList s.toList

/-- The whitespace set of Python `str.strip()`. -/
def pyIsSpace (c : Char) : Bool :=
  c = ' ' || c = '\t' || c = '\n' || c = '\r' || c = '\x0b' || c = '\x0c'

/-- ASCII lowercasing of one character, as Python `str.lower()` acts on
the ASCII inputs this program manipulates. -/
def pyToLowerChar (c : Char) : Char :=
  if 'A'.toNat ≤ c.toNat && c.toNat ≤ 'Z'.toNat then Char.ofNat (c.toNat + 32)
  else c

/-- Python `s.lower()`. -/
def lowerL (l : List Char) : List Char := l.map pyToLowerChar

/-- Python `s.strip()`. -/
def stripL (l : List Char) : List Char :=
  ((l.dropWhile pyIsSpace).reverse.dropWhile pyIsSpace).reverse

/-- Splitting on the newline character; with the empty accumulator this
is Python `s.split('\n')` (keeps empty chunks, no merging). -/
def splitNl (acc : List Char) : List Char → List (List Char)
  | [] => [acc.reverse]
  | c :: cs => if c = '\n' then acc.reverse :: splitNl [] cs
               else splitNl (c :: acc) cs

/-- Python `text.split('\n')` on a Lean string. -/
def pyLines (s : String) : List (List Char) := splitNl [] s.toList

end Travara

namespace Travara

/-! ## Itinerary formatter (`app.py`, main, lines 256-300)

The displayed itinerary is either split into day-labelled sections or
shown as one plain block.  `Rendered` is that observable output. -/

/-- The day-marker detection test (`app.py` lines 261-264):
`line.lower().strip().startswith(('day ', '**day ', '# day '))`. -/
def dayDetectL (line : List Char) : Bool :=
  let l := stripL (lowerL line)
  leadsWith "day ".toList l || leadsWith "**day ".toList l ||
    leadsWith "# day ".toList l

/-- `has_day_markers` (`app.py` lines 261-264): some line matches. -/
def hasDayMarkers (text : String) : Bool :=
  (pyLines text).any dayDetectL

/-- The in-loop header test (`app.py` lines 274-277): the three
detection patterns, or a line starting with `#` whose lowercased text
contains `day` anywhere. -/
def dayHeaderLineL (line : List Char) : Bool :=
  let lower := stripL (lowerL line)
  leadsWith "day ".toList lower || leadsWith "**day ".toList lower ||
    leadsWith "# day ".toList lower ||
    (leadsWith "#".toList (stripL line) && subOccurs "day".toList lower)

/-- Python `s.replace('#', '')`: removes every `#`. -/
def removeHash (l : List Char) : List Char := l.filter (fun c => c ≠ '#')

/-- Python `s.replace('**', '')`: removes non-overlapping `**` pairs
left to right. -/
def removeStars : List Char → List Char
  | '*' :: '*' :: rest => removeStars rest
  | c :: rest => c :: removeStars rest
  | [] => []

/-- Header text cleanup (`app.py` line 284):
`line.strip().replace('#', '').replace('**', '').strip()`. -/
def cleanLabelL (line : List Char) : List Char :=
  stripL (removeStars (removeHash (stripL line)))

/-- The split loop of `app.py` lines 268-297 over the list of lines.
`curDay = none` models Python `current_day is None`; the final flush
keeps the last section only when `current_day` is truthy (non-empty). -/
def splitLoop : List (List Char) → Option (List Char) → List (List Char) →
    List (List Char × List (List Char))
  | [], curDay, curContent =>
    match curDay with
    | some d => if d = [] then [] else [(d, curContent)]
    | none => []
  | line :: rest, curDay, curContent =>
    if dayHeaderLineL line then
      (match curDay with
        | some d => [(d, curContent)]
        | none => []) ++ splitLoop rest (some (cleanLabelL line)) []
    else
      match curDay with
      | none => splitLoop rest (some "Overview".toList) [line]
      | some d => splitLoop rest (some d) (curContent ++ [line])

/-- Observable display of an itinerary: day sections or one plain block. -/
inductive Rendered
  | sections (secs : List (String × List String))
  | plain (text : String)
deriving DecidableEq

/-- The whole display logic (`app.py` lines 256-300): split into day
sections when a day marker is detected, otherwise one plain block. -/
def formatItinerary (text : String) : Rendered :=
  if hasDayMarkers text then
    .sections ((splitLoop (pyLines text) none []).map
      (fun sec => (String.mk sec.1, sec.2.map String.mk)))
  else
    .plain text

end Travara

namespace Travara

/-- C6: on the two-day example text the formatter yields exactly the two
sections `"Day 1"` / `"Visit museum"` and `"Day 2"` / `"Relax at beach"`. -/
theorem c6_two_day_example :
    formatItinerary "Day 1\nVisit museum\nDay 2\nRelax at beach" =
      .sections [("Day 1", ["Visit museum"]), ("Day 2", ["Relax at beach"])] := by
  decide

/-- C7: a text in which no line matches the day-marker detection is
displayed as one plain block holding the whole text unchanged. -/
theorem c7_no_marker_single_block (text : String)
    (h : hasDayMarkers text = false) :
    formatItinerary text = .plain text := by
  simp [formatItinerary, h]

/-- C7 witness at the spec's example text. -/
theorem c7_no_marker_single_block_witness :
    formatItinerary "A lovely single-day trip to the coast." =
      .plain "A lovely single-day trip to the coast." :=
  c7_no_marker_single_block _ (by decide)

/-- C10: the in-loop header test is strictly broader than the detection
test — `"# Holiday tips"` is not a detection match but is treated as a
header during splitting, so the example text produces a section whose
label does not begin with `"Day"`. -/
theorem c10_loop_header_broader :
    (∀ line, dayDetectL line = true → dayHeaderLineL line = true) ∧
    dayDetectL "# Holiday tips".toList = false ∧
    dayHeaderLineL "# Holiday tips".toList = true ∧
    formatItinerary "Day 1\nVisit museum\n# Holiday tips\nPack sunscreen" =
      .sections [("Day 1", ["Visit museum"]), ("Holiday tips", ["Pack sunscreen"])] ∧
    leadsWith "Day".toList "Holiday tips".toList = false := by
  refine ⟨?_, by decide, by decide, by decide, by decide⟩
  intro line h
  simp only [dayDetectL, Bool.or_eq_true] at h
  simp only [dayHeaderLineL, Bool.or_eq_true]
  tauto

/-- C10 witness: the broader-pattern implication applied at `"Day 1"`. -/
theorem c10_loop_header_broader_witness :
    dayHeaderLineL "Day 1".toList = true :=
  c10_loop_header_broader.1 "Day 1".toList (by decide)

end Travara

namespace Travara

/-! ## Provider clients: prompt construction

`openai_service.py` lines 70-94 and `ollama_service.py` lines 56-80 each
build the user prompt and the system message for one generation call.
The Python code duplicates the template in both files; each definition
below is transliterated from its own file. -/

/-- `openai_service.py` line 70:
`", ".join(interests) if interests else "general travel"`. -/
def openaiInterestsStr (interests : List String) : String :=
  if interests.isEmpty then "general travel"
  else String.intercalate ", " interests

/-- `ollama_service.py` line 56: same expression in the other file. -/
def ollamaInterestsStr (interests : List String) : String :=
  if interests.isEmpty then "general travel"
  else String.intercalate ", " interests

/-- The user prompt of `openai_service.py` lines 72-94 (the f-string,
with each interpolation spliced between the literal segments). -/
def openaiGenerateUserPrompt (source destination start_date end_date : String)
    (duration : Nat) (budget : String) (interests : List String)
    (travel_type : String) : String :=
  "You are an expert travel planner. Create a detailed " ++ toString duration ++
  "-day travel itinerary for a trip from " ++ source ++ " to " ++ destination ++
  ".\n\nTravel Details:\n- Travel Dates: " ++ start_date ++ " to " ++ end_date ++
  "\n- Budget Level: " ++ budget ++
  "\n- Interests: " ++ openaiInterestsStr interests ++
  "\n- Travel Type: " ++ travel_type ++
  "\n\nPlease provide a day-wise itinerary that includes:\n1. Daily schedule with time slots (morning, afternoon, evening)\n2. Specific activities and attractions to visit\n3. Estimated daily expenses in USD (based on " ++
  budget ++
  " budget)\n4. Food recommendations (breakfast, lunch, dinner) with local specialties\n5. Local travel tips\n6. Safety tips specific to " ++
  destination ++
  "\n\nFormat the response clearly with:\n- Day 1, Day 2, etc. as headers\n- Use bullet points for activities\n- Keep it concise but informative\n- Make it practical and actionable\n\nFocus on authentic experiences that match the traveler\x27s interests and budget level."

/-- The user prompt of `ollama_service.py` lines 58-80. -/
def ollamaGenerateUserPrompt (source destination start_date end_date : String)
    (duration : Nat) (budget : String) (interests : List String)
    (travel_type : String) : String :=
  "You are an expert travel planner. Create a detailed " ++ toString duration ++
  "-day travel itinerary for a trip from " ++ source ++ " to " ++ destination ++
  ".\n\nTravel Details:\n- Travel Dates: " ++ start_date ++ " to " ++ end_date ++
  "\n- Budget Level: " ++ budget ++
  "\n- Interests: " ++ ollamaInterestsStr interests ++
  "\n- Travel Type: " ++ travel_type ++
  "\n\nPlease provide a day-wise itinerary that includes:\n1. Daily schedule with time slots (morning, afternoon, evening)\n2. Specific activities and attractions to visit\n3. Estimated daily expenses in USD (based on " ++
  budget ++
  " budget)\n4. Food recommendations (breakfast, lunch, dinner) with local specialties\n5. Local travel tips\n6. Safety tips specific to " ++
  destination ++
  "\n\nFormat the response clearly with:\n- Day 1, Day 2, etc. as headers\n- Use bullet points for activities\n- Keep it concise but informative\n- Make it practical and actionable\n\nFocus on authentic experiences that match the traveler\x27s interests and budget level."

/-- The system message of `openai_service.py` line 100. -/
def openaiSystemContent : String :=
  "You are a professional travel planner with expertise in creating detailed, practical, and budget-conscious itineraries."

/-- The system message of `ollama_service.py` line 82. -/
def ollamaSystemContent : String :=
  "You are a professional travel planner with expertise in creating detailed, practical, and budget-conscious itineraries."

/-! ### Substring lemmas for the embedding of trip fields -/

theorem leadsWith_self_append (pat rest : List Char) :
    leadsWith pat (pat ++ rest) = true := by
  induction pat with
  | nil => rfl
  | cons c cs ih => simp [leadsWith, ih]

theorem subOccurs_of_leadsWith {pat l : List Char}
    (h : leadsWith pat l = true) : subOccurs pat l = true := by
  cases l with
  | nil => simpa [subOccurs] using h
  | cons c cs => simp [subOccurs, h]

theorem subOccurs_append_right (a : List Char) {pat l : List Char}
    (h : subOccurs pat l = true) : subOccurs pat (a ++ l) = true := by
  induction a with
  | nil => simpa using h
  | cons c cs ih => simp [subOccurs, ih]

set_option maxRecDepth 4000 in
/-- The user prompt, flattened to a right-nested character-list chain
with each interpolated field exposed; holds by definitional unfolding
of string append. -/
theorem openaiPrompt_data (source destination start_date end_date : String)
    (duration : Nat) (budget : String) (interests : List String)
    (travel_type : String) :
    (openaiGenerateUserPrompt source destination start_date end_date duration
        budget interests travel_type).toList =
      "You are an expert travel planner. Create a detailed ".toList ++
      ((toString duration).toList ++
      ("-day travel itinerary for a trip from ".toList ++
      (source.toList ++
      (" to ".toList ++
      (destination.toList ++
      (".\n\nTravel Details:\n- Travel Dates: ".toList ++
      (start_date.toList ++
      (" to ".toList ++
      (end_date.toList ++
      ("\n- Budget Level: ".toList ++
      (budget.toList ++
      ("\n- Interests: ".toList ++
      ((openaiInterestsStr interests).toList ++
      ("\n- Travel Type: ".toList ++
      (travel_type.toList ++
      ("\n\nPlease provide a day-wise itinerary that includes:\n1. Daily schedule with time slots (morning, afternoon, evening)\n2. Specific activities and attractions to visit\n3. Estimated daily expenses in USD (based on ".toList ++
      (budget.toList ++
      (" budget)\n4. Food recommendations (breakfast, lunch, dinner) with local specialties\n5. Local travel tips\n6. Safety tips specific to ".toList ++
      (destination.toList ++
      "\n\nFormat the response clearly with:\n- Day 1, Day 2, etc. as headers\n- Use bullet points for activities\n- Keep it concise but informative\n- Make it practical and actionable\n\nFocus on authentic experiences that match the traveler\x27s interests and budget level.".toList))))))))))))))))))) := by
  simp [openaiGenerateUserPrompt, String.toList, List.append_assoc]

/-- C8: both provider variants render character-for-character the same
user prompt and the same system message from the same trip fields; the
interests are comma-joined with `"general travel"` substituted for an
empty list, and the prompt embeds duration, source, destination, both
dates, budget and travel type. -/
theorem c8_provider_prompts_agree (source destination start_date end_date : String)
    (duration : Nat) (budget : String) (interests : List String)
    (travel_type : String) :
    openaiGenerateUserPrompt source destination start_date end_date duration
        budget interests travel_type =
      ollamaGenerateUserPrompt source destination start_date end_date duration
        budget interests travel_type ∧
    openaiSystemContent = ollamaSystemContent ∧
    openaiInterestsStr interests = ollamaInterestsStr interests ∧
    openaiInterestsStr [] = "general travel" ∧
    openaiInterestsStr ["culture", "food"] = "culture, food" ∧
    (let p := (openaiGenerateUserPrompt source destination start_date end_date
        duration budget interests travel_type).toList
     subOccurs (toString duration).toList p = true ∧
     subOccurs source.toList p = true ∧
     subOccurs destination.toList p = true ∧
     subOccurs start_date.toList p = true ∧
     subOccurs end_date.toList p = true ∧
     subOccurs budget.toList p = true ∧
     subOccurs travel_type.toList p = true) := by
  refine ⟨rfl, rfl, rfl, rfl, rfl, ?_, ?_, ?_, ?_, ?_, ?_, ?_⟩ <;>
    rw [openaiPrompt_data]
  · exact subOccurs_append_right _
      (subOccurs_of_leadsWith (leadsWith_self_append _ _))
  · exact subOccurs_append_right _ (subOccurs_append_right _
      (subOccurs_append_right _
        (subOccurs_of_leadsWith (leadsWith_self_append _ _))))
  · exact subOccurs_append_right _ (subOccurs_append_right _
      (subOccurs_append_right _ (subOccurs_append_right _
        (subOccurs_append_right _
          (subOccurs_of_leadsWith (leadsWith_self_append _ _))))))
  · exact subOccurs_append_right _ (subOccurs_append_right _
      (subOccurs_append_right _ (subOccurs_append_right _
        (subOccurs_append_right _ (subOccurs_append_right _
          (subOccurs_append_right _
            (subOccurs_of_leadsWith (leadsWith_self_append _ _))))))))
  · exact subOccurs_append_right _ (subOccurs_append_right _
      (subOccurs_append_right _ (subOccurs_append_right _
        (subOccurs_append_right _ (subOccurs_append_right _
          (subOccurs_append_right _ (subOccurs_append_right _
            (subOccurs_append_right _
              (subOccurs_of_leadsWith (leadsWith_self_append _ _))))))))))
  · exact subOccurs_append_right _ (subOccurs_append_right _
      (subOccurs_append_right _ (subOccurs_append_right _
        (subOccurs_append_right _ (subOccurs_append_right _
          (subOccurs_append_right _ (subOccurs_append_right _
            (subOccurs_append_right _ (subOccurs_append_right _
              (subOccurs_append_right _
                (subOccurs_of_leadsWith (leadsWith_self_append _ _))))))))))))
  · exact subOccurs_append_right _ (subOccurs_append_right _
      (subOccurs_append_right _ (subOccurs_append_right _
        (subOccurs_append_right _ (subOccurs_append_right _
          (subOccurs_append_right _ (subOccurs_append_right _
            (subOccurs_append_right _ (subOccurs_append_right _
              (subOccurs_append_right _ (subOccurs_append_right _
                (subOccurs_append_right _ (subOccurs_append_right _
                  (subOccurs_append_right _
                    (subOccurs_of_leadsWith (leadsWith_self_append _ _))))))))))))))))

end Travara

namespace Travara

/-! ## Service construction and the startup registry

Each `Except String` value models the body of a Python call that either
returns normally or raises with the given message. -/

/-- Environment values and client-construction outcomes seen once at
startup. -/
structure StartupEnv where
  openaiKey : Option String
  openaiClientInit : Except String Unit
  ollamaBaseUrl : Option String
  ollamaTagsProbe : Except String Nat
  placesKey : Option String
  placesClientInit : Except String Unit
  weatherKey : Option String

/-- Python truthiness test `not value` for an optional string read from
the environment: absent or empty counts as false. -/
def envFalsy : Option String → Bool
  | none => true
  | some s => s == ""

/-- `OpenAIService.__init__` (`openai_service.py` lines 16-41): rejects a
missing or placeholder key, then constructs the client, wrapping a
construction fault. -/
def openaiServiceInit (env : StartupEnv) : Except String Unit :=
  if envFalsy env.openaiKey || env.openaiKey == some "your_openai_api_key_here" then
    .error "OPENAI_API_KEY not found in environment variables"
  else
    match env.openaiClientInit with
    | .ok _ => .ok ()
    | .error e => .error ("Failed to initialize OpenAI client: " ++ e)

/-- The configured Ollama base URL (`ollama_service.py` line 18). -/
def ollamaBase (env : StartupEnv) : String :=
  env.ollamaBaseUrl.getD "http://localhost:11434"

/-- `OllamaService.__init__` (`ollama_service.py` lines 16-27): a failed
liveness probe raises a connection message; a non-200 status raises a
not-responding message. -/
def ollamaServiceInit (env : StartupEnv) : Except String Unit :=
  match env.ollamaTagsProbe with
  | .error e =>
    .error ("Cannot connect to Ollama at " ++ ollamaBase env ++
      ". Make sure Ollama is running: " ++ e)
  | .ok status =>
    if status ≠ 200 then
      .error ("Ollama server not responding at " ++ ollamaBase env)
    else .ok ()

/-- `PlacesService.__init__` (`places_service.py` lines 16-24). -/
def placesServiceInit (env : StartupEnv) : Except String Unit :=
  if envFalsy env.placesKey || env.placesKey == some "your_google_places_api_key_here" then
    .error "GOOGLE_PLACES_API_KEY not found in environment variables"
  else
    match env.placesClientInit with
    | .ok _ => .ok ()
    | .error e => .error ("Failed to initialize Google Places client: " ++ e)

/-- The weather client constructed by `WeatherService.__init__`
(`weather_service.py` lines 17-20): it only stores the optional key and
never raises. -/
structure WeatherSlot where
  api_key : Option String
deriving DecidableEq

/-- The registry produced by `initialize_services` in `app.py`: one slot
per client, absent when construction failed. -/
structure Services where
  ollama : Option Unit
  openai : Option Unit
  places : Option Unit
  weather : Option WeatherSlot
deriving DecidableEq

/-- `initialize_services` (`app.py` lines 55-108): constructs each
client, catching every construction failure into an error string and an
absent slot; it is total (never raises). -/
def initializeServices (env : StartupEnv) : Services × List String :=
  let openaiPart : Option Unit × List String :=
    match openaiServiceInit env with
    | .ok _ => (some (), [])
    | .error m =>
      (none,
       [if containsSub m "not found" || containsSub m "your_openai_api_key_here" then
          "OpenAI: API key not configured. Please add your OPENAI_API_KEY to the .env file."
        else "OpenAI: " ++ m])
  let ollamaPart : Option Unit × List String :=
    match ollamaServiceInit env with
    | .ok _ => (some (), [])
    | .error m => (none, ["Ollama: " ++ m])
  let placesPart : Option Unit × List String :=
    match placesServiceInit env with
    | .ok _ => (some (), [])
    | .error m =>
      (none,
       [if containsSub m "not found" || containsSub m "your_google_places_api_key_here" then
          "Google Places: API key not configured. Please add your GOOGLE_PLACES_API_KEY to the .env file."
        else "Google Places: " ++ m])
  (⟨ollamaPart.1, openaiPart.1, placesPart.1, some ⟨env.weatherKey⟩⟩,
   openaiPart.2 ++ ollamaPart.2 ++ placesPart.2)

/-! ## Orchestrator (`app.py`, main, lines 168-352) -/

/-- The AI-service options offered in the sidebar (`app.py` 168-172):
only non-absent slots, local variant listed first. -/
def aiServiceOptions (s : Services) : List String :=
  (if s.ollama.isSome then ["Ollama (Local)"] else []) ++
  (if s.openai.isSome then ["OpenAI"] else [])

/-- The radio selection (`app.py` 174-185): `none` when no options are
offered; otherwise the pick when it is among the offered options,
defaulting to the first option (the local variant when present). -/
def chooseAiService (opts : List String) (pick : String) : Option String :=
  if opts.isEmpty then none
  else some (if opts.contains pick then pick else opts.headD "")

/-- Modelled from the spec: `validate_dates` lives in `utils/helpers.py`,
which is imported by `app.py` but is not among the sources.  Per the
spec, the date invariant is end date ≥ start date and a violation is
rejected with a message naming the constraint.  Dates are day ordinals. -/
def validate_dates (start_dt end_dt : Int) : Bool × String :=
  if end_dt < start_dt then (false, "End date must be on or after the start date")
  else (true, "")

/-- The observable result of one press of the generate button. -/
inductive Outcome
  | validationEmptyFields
  | validationDates (msg : String)
  | noAiService
  | serviceUnavailable (name : String)
  | generationFailed (msg : String)
  | generated (itinerary : String)
deriving DecidableEq

/-- Outbound calls made during one press of the generate button. -/
structure CallCounts where
  gen : Nat
  weatherCalls : Nat
  placesCalls : Nat
deriving DecidableEq

/-- The button-press path of `main` (`app.py` lines 190-352): empty-field
check, date validation, provider selection, generation, then weather and
places enrichment.  `genOutcome` stands for the body of the one
`generate_itinerary` call; the counts record the provider call and the
enrichment calls (one weather summary lookup, three places searches). -/
def runGenerate (s : Services) (aiService : Option String)
    (source destination : String) (start_dt end_dt : Int)
    (genOutcome : Except String String) : Outcome × CallCounts :=
  if source = "" ∨ destination = "" then (.validationEmptyFields, ⟨0, 0, 0⟩)
  else
    let v := validate_dates start_dt end_dt
    if v.1 = false then (.validationDates v.2, ⟨0, 0, 0⟩)
    else
      match aiService with
      | none => (.noAiService, ⟨0, 0, 0⟩)
      | some name =>
        let svc := if name = "Ollama (Local)" then s.ollama else s.openai
        let svcName := if name = "Ollama (Local)" then "Ollama" else "OpenAI"
        match svc with
        | none => (.serviceUnavailable svcName, ⟨0, 0, 0⟩)
        | some _ =>
          match genOutcome with
          | .error e => (.generationFailed e, ⟨1, 0, 0⟩)
          | .ok itin =>
            let w := match s.weather with
              | some ws => if envFalsy ws.api_key then 0 else 1
              | none => 0
            let p := if s.places.isSome then 3 else 0
            (.generated itin, ⟨1, w, p⟩)

end Travara

namespace Travara

/-- C1: with both provider slots absent, a button press makes zero
generation calls and zero enrichment calls, and as soon as the inputs
pass validation the reported outcome is that no AI service is
available. -/
theorem c1_no_provider_aborts (s : Services) (pick source destination : String)
    (start_dt end_dt : Int) (gen : Except String String)
    (ho : s.ollama = none) (hp : s.openai = none) :
    (runGenerate s (chooseAiService (aiServiceOptions s) pick)
        source destination start_dt end_dt gen).2 = ⟨0, 0, 0⟩ ∧
    (source ≠ "" → destination ≠ "" → ¬ end_dt < start_dt →
      (runGenerate s (chooseAiService (aiServiceOptions s) pick)
          source destination start_dt end_dt gen).1 = .noAiService) := by
  have hopts : aiServiceOptions s = [] := by
    simp [aiServiceOptions, ho, hp]
  have hsvc : chooseAiService (aiServiceOptions s) pick = none := by
    simp [chooseAiService, hopts]
  rw [hsvc]
  constructor
  · by_cases h1 : source = "" ∨ destination = ""
    · simp [runGenerate, h1]
    · by_cases h2 : end_dt < start_dt <;>
        simp [runGenerate, h1, validate_dates, h2]
  · intro h1 h2 h3
    simp [runGenerate, h1, h2, validate_dates, h3]

/-- C1 witness: a concrete registry with both providers absent. -/
theorem c1_no_provider_aborts_witness :
    (runGenerate ⟨none, none, some (), some ⟨none⟩⟩
        (chooseAiService (aiServiceOptions ⟨none, none, some (), some ⟨none⟩⟩) "OpenAI")
        "Paris" "Rome" 0 1 (.ok "it")).2 = ⟨0, 0, 0⟩ ∧
    (runGenerate ⟨none, none, some (), some ⟨none⟩⟩
        (chooseAiService (aiServiceOptions ⟨none, none, some (), some ⟨none⟩⟩) "OpenAI")
        "Paris" "Rome" 0 1 (.ok "it")).1 = .noAiService := by
  have h := c1_no_provider_aborts ⟨none, none, some (), some ⟨none⟩⟩
    "OpenAI" "Paris" "Rome" 0 1 (.ok "it") rfl rfl
  exact ⟨h.1, h.2 (by decide) (by decide) (by decide)⟩

/-- C3: an empty source, an empty destination or an end date before the
start date is rejected by validation, naming the violated constraint,
with zero provider and zero enrichment calls. -/
theorem c3_validation_rejects (s : Services) (ai : Option String)
    (source destination : String) (start_dt end_dt : Int)
    (gen : Except String String)
    (h : source = "" ∨ destination = "" ∨ end_dt < start_dt) :
    (runGenerate s ai source destination start_dt end_dt gen).2 = ⟨0, 0, 0⟩ ∧
    ((source = "" ∨ destination = "") →
      (runGenerate s ai source destination start_dt end_dt gen).1 =
        .validationEmptyFields) ∧
    (source ≠ "" → destination ≠ "" →
      (runGenerate s ai source destination start_dt end_dt gen).1 =
        .validationDates "End date must be on or after the start date") := by
  refine ⟨?_, ?_, ?_⟩
  · by_cases h1 : source = "" ∨ destination = ""
    · simp [runGenerate, h1]
    · have h3 : end_dt < start_dt := by tauto
      simp [runGenerate, h1, validate_dates, h3]
  · intro h1
    simp [runGenerate, h1]
  · intro h1 h2
    have h3 : end_dt < start_dt := by tauto
    have h1' : ¬ (source = "" ∨ destination = "") := by tauto
    simp [runGenerate, h1', validate_dates, h3]

/-- C3 witness: end date strictly before start date with both fields
filled. -/
theorem c3_validation_rejects_witness :
    (runGenerate ⟨some (), some (), some (), some ⟨none⟩⟩ (some "OpenAI")
        "Paris" "Rome" 5 3 (.ok "it")).2 = ⟨0, 0, 0⟩ ∧
    (runGenerate ⟨some (), some (), some (), some ⟨none⟩⟩ (some "OpenAI")
        "Paris" "Rome" 5 3 (.ok "it")).1 =
      .validationDates "End date must be on or after the start date" := by
  have h := c3_validation_rejects ⟨some (), some (), some (), some ⟨none⟩⟩
    (some "OpenAI") "Paris" "Rome" 5 3 (.ok "it")
    (Or.inr (Or.inr (by decide)))
  exact ⟨h.1, h.2.2 (by decide) (by decide)⟩

/-- C2: a missing or placeholder hosted-model credential makes the
hosted-client constructor fail with the configuration message, the
registry records that failure and leaves the hosted slot absent, and the
hosted option is not among the selectable providers. -/
theorem c2_openai_key_missing (env : StartupEnv)
    (h : env.openaiKey = none ∨ env.openaiKey = some "your_openai_api_key_here") :
    openaiServiceInit env = .error "OPENAI_API_KEY not found in environment variables" ∧
    (initializeServices env).1.openai = none ∧
    "OpenAI: API key not configured. Please add your OPENAI_API_KEY to the .env file." ∈
      (initializeServices env).2 ∧
    "OpenAI" ∉ aiServiceOptions (initializeServices env).1 := by
  have hinit : openaiServiceInit env =
      .error "OPENAI_API_KEY not found in environment variables" := by
    rcases h with h | h <;> simp [openaiServiceInit, h, envFalsy]
  have hc : (containsSub "OPENAI_API_KEY not found in environment variables" "not found" ||
      containsSub "OPENAI_API_KEY not found in environment variables"
        "your_openai_api_key_here") = true := by decide
  refine ⟨hinit, ?_, ?_, ?_⟩
  · simp [initializeServices, hinit]
  · simp [initializeServices, hinit, hc]
  · simp only [initializeServices, hinit, hc]
    rcases hol : ollamaServiceInit env with e | u <;>
      rcases hpl : placesServiceInit env with e2 | u2 <;>
        simp [aiServiceOptions]

/-- C2 witness: an environment with no hosted-model credential at all. -/
theorem c2_openai_key_missing_witness :
    openaiServiceInit ⟨none, .ok (), none, .ok 200, some "gk", .ok (), none⟩ =
      .error "OPENAI_API_KEY not found in environment variables" ∧
    (initializeServices ⟨none, .ok (), none, .ok 200, some "gk", .ok (), none⟩).1.openai =
      none ∧
    "OpenAI: API key not configured. Please add your OPENAI_API_KEY to the .env file." ∈
      (initializeServices ⟨none, .ok (), none, .ok 200, some "gk", .ok (), none⟩).2 :=
  let h := c2_openai_key_missing ⟨none, .ok (), none, .ok 200, some "gk", .ok (), none⟩
    (Or.inl rfl)
  ⟨h.1, h.2.1, h.2.2.1⟩

end Travara

namespace Travara

/-! ## Geo-enrichment client (`places_service.py`) -/

/-- A coordinate pair, `geocode_result[0]['geometry']['location']`. -/
structure GeoLocation where
  lat : Int
  lng : Int
deriving DecidableEq

/-- One geocode result entry. -/
structure GeocodeEntry where
  location : GeoLocation
deriving DecidableEq

/-- One raw nearby-search entry; every key may be absent (read through
Python dict `.get` with a default). -/
structure RawPlace where
  name : Option String
  rating : Option Int
  vicinity : Option String
  price_level : Option Int
  place_id : Option String
deriving DecidableEq

/-- A nearby-search payload, `places_result.get('results', [])`. -/
structure PlacesResponse where
  results : Option (List RawPlace)
deriving DecidableEq

/-- A numeric value or the `'N/A'` default stored in its place. -/
inductive NumOrNA
  | num (n : Int)
  | na
deriving DecidableEq

/-- One mapped output record; `price_level` is carried only by
restaurant records (`none` elsewhere means the key is not emitted). -/
structure PlaceRecord where
  name : String
  rating : NumOrNA
  address : String
  price_level : Option NumOrNA
  place_id : String
deriving DecidableEq

/-- The Google Maps client boundary: geocode and nearby search
(location, radius, type, rank mode), each able to raise. -/
structure GMapsClient where
  geocode : String → Except String (List GeocodeEntry)
  placesNearby : GeoLocation → Nat → String → String →
    Except String PlacesResponse

/-- `place.get('rating', 'N/A')`. -/
def rawRating (p : RawPlace) : NumOrNA :=
  match p.rating with
  | some n => .num n
  | none => .na

/-- `PlacesService.get_attractions` (`places_service.py` lines 26-66):
geocode, nearby search for `tourist_attraction` within 5 km ranked by
prominence, map up to `limit` results; any raise and an empty geocode
result both yield the empty list. -/
def get_attractions (client : GMapsClient) (destination : String)
    (limit : Nat) : List PlaceRecord :=
  match client.geocode destination with
  | .error _ => []
  | .ok [] => []
  | .ok (g :: _) =>
    match client.placesNearby g.location 5000 "tourist_attraction" "prominence" with
    | .error _ => []
    | .ok resp =>
      ((resp.results.getD []).take limit).map fun p =>
        { name := p.name.getD "Unknown"
          rating := rawRating p
          address := p.vicinity.getD "Address not available"
          price_level := none
          place_id := p.place_id.getD "" }

/-- `PlacesService.get_restaurants` (`places_service.py` lines 68-109):
as attractions but type `restaurant` and with a price level. -/
def get_restaurants (client : GMapsClient) (destination : String)
    (limit : Nat) : List PlaceRecord :=
  match client.geocode destination with
  | .error _ => []
  | .ok [] => []
  | .ok (g :: _) =>
    match client.placesNearby g.location 5000 "restaurant" "prominence" with
    | .error _ => []
    | .ok resp =>
      ((resp.results.getD []).take limit).map fun p =>
        { name := p.name.getD "Unknown"
          rating := rawRating p
          address := p.vicinity.getD "Address not available"
          price_level := some (match p.price_level with
            | some n => .num n
            | none => .na)
          place_id := p.place_id.getD "" }

/-- `PlacesService.get_cafes` (`places_service.py` lines 111-151):
as attractions but type `cafe`. -/
def get_cafes (client : GMapsClient) (destination : String)
    (limit : Nat) : List PlaceRecord :=
  match client.geocode destination with
  | .error _ => []
  | .ok [] => []
  | .ok (g :: _) =>
    match client.placesNearby g.location 5000 "cafe" "prominence" with
    | .error _ => []
    | .ok resp =>
      ((resp.results.getD []).take limit).map fun p =>
        { name := p.name.getD "Unknown"
          rating := rawRating p
          address := p.vicinity.getD "Address not available"
          price_level := none
          place_id := p.place_id.getD "" }

/-- C5: in all three categories, an empty geocode result yields an empty
sequence rather than an error, and a raise during geocoding or during
the nearby search likewise yields an empty sequence. -/
theorem c5_places_empty_on_failure (client : GMapsClient)
    (destination : String) (limit : Nat) :
    (client.geocode destination = .ok [] →
      get_attractions client destination limit = [] ∧
      get_restaurants client destination limit = [] ∧
      get_cafes client destination limit = []) ∧
    (∀ e, client.geocode destination = .error e →
      get_attractions client destination limit = [] ∧
      get_restaurants client destination limit = [] ∧
      get_cafes client destination limit = []) ∧
    (∀ g rest e, client.geocode destination = .ok (g :: rest) →
      client.placesNearby g.location 5000 "tourist_attraction" "prominence" = .error e →
      get_attractions client destination limit = []) ∧
    (∀ g rest e, client.geocode destination = .ok (g :: rest) →
      client.placesNearby g.location 5000 "restaurant" "prominence" = .error e →
      get_restaurants client destination limit = []) ∧
    (∀ g rest e, client.geocode destination = .ok (g :: rest) →
      client.placesNearby g.location 5000 "cafe" "prominence" = .error e →
      get_cafes client destination limit = []) := by
  refine ⟨fun h => ?_, fun e h => ?_, fun g rest e hg hn => ?_,
    fun g rest e hg hn => ?_, fun g rest e hg hn => ?_⟩
  · exact ⟨by simp [get_attractions, h], by simp [get_restaurants, h],
      by simp [get_cafes, h]⟩
  · exact ⟨by simp [get_attractions, h], by simp [get_restaurants, h],
      by simp [get_cafes, h]⟩
  · simp [get_attractions, hg, hn]
  · simp [get_restaurants, hg, hn]
  · simp [get_cafes, hg, hn]

/-- C5 witness: a client whose geocoding finds nothing. -/
theorem c5_places_empty_on_failure_witness :
    get_attractions ⟨fun _ => .ok [], fun _ _ _ _ => .ok ⟨none⟩⟩ "Nowhere" 5 = [] ∧
    get_restaurants ⟨fun _ => .ok [], fun _ _ _ _ => .ok ⟨none⟩⟩ "Nowhere" 5 = [] ∧
    get_cafes ⟨fun _ => .ok [], fun _ _ _ _ => .ok ⟨none⟩⟩ "Nowhere" 5 = [] :=
  (c5_places_empty_on_failure ⟨fun _ => .ok [], fun _ _ _ _ => .ok ⟨none⟩⟩
    "Nowhere" 5).1 rfl

end Travara

namespace Travara

/-! ## Weather client (`weather_service.py`) -/

/-- A geocode entry of the OpenWeather geo API
(`data[0]['lat']`, `data[0]['lon']`). -/
structure WeatherGeo where
  lat : Int
  lon : Int
deriving DecidableEq

/-- The `'main'` object of a current-conditions payload. -/
structure WeatherMain where
  temp : Int
  humidity : Int
deriving DecidableEq

/-- One entry of the `'weather'` list. -/
structure WeatherCondition where
  description : String
deriving DecidableEq

/-- The optional `'wind'` object; `speed` may itself be absent. -/
structure WindInfo where
  speed : Option Int
deriving DecidableEq

/-- A current-conditions payload; a missing `'main'` key or an empty
`'weather'` list makes the dictionary accesses raise (caught by the
outer handler). -/
structure WeatherBody where
  main : Option WeatherMain
  weather : List WeatherCondition
  wind : Option WindInfo
deriving DecidableEq

/-- An opaque forecast payload. -/
structure ForecastData where
  payload : String
deriving DecidableEq

/-- Outcome of one `requests.get`: a raised transport exception, or a
response carrying a status code and a parsed body. -/
inductive Http (α : Type)
  | exn (msg : String)
  | resp (status : Nat) (body : α)
deriving DecidableEq

/-- The three outbound requests `get_weather_summary` can make, in
order: geocode, current conditions, forecast. -/
structure WeatherFetches where
  geocode : Http (List WeatherGeo)
  current : Http WeatherBody
  forecast : Http ForecastData

/-- The `'current'` sub-dictionary consumed by the formatter; each key
may be missing when the dictionary is built elsewhere. -/
structure CurrentDict where
  temperature : Option Int
  description : Option String
  humidity : Option Int
  wind_speed : Option Int
deriving DecidableEq

/-- The summary dictionary produced by `get_weather_summary`. -/
structure WeatherDict where
  current : Option CurrentDict
  forecast : Option ForecastData
  location : Option String
deriving DecidableEq

/-- `WeatherService.get_weather_summary` (`weather_service.py` lines
22-95), returning the summary (or `None`) together with the number of
HTTP requests attempted.  A raised exception anywhere inside the `try`
block yields `None`; a non-200 forecast status only leaves the forecast
field `None`. -/
def get_weather_summary (api_key : Option String) (f : WeatherFetches)
    (destination : String) : Option WeatherDict × Nat :=
  if envFalsy api_key then (none, 0)
  else
    match f.geocode with
    | .exn _ => (none, 1)
    | .resp gs gbody =>
      if gs ≠ 200 then (none, 1)
      else
        match gbody with
        | [] => (none, 1)
        | _ :: _ =>
          match f.current with
          | .exn _ => (none, 2)
          | .resp ws wbody =>
            if ws ≠ 200 then (none, 2)
            else
              match f.forecast with
              | .exn _ => (none, 3)
              | .resp fs fbody =>
                let forecast_data := if fs = 200 then some fbody else none
                match wbody.main, wbody.weather with
                | some m, w :: _ =>
                  (some ⟨some ⟨some m.temp, some w.description, some m.humidity,
                      some (match wbody.wind with
                        | some wd => wd.speed.getD 0
                        | none => 0)⟩,
                    forecast_data, some destination⟩, 3)
                | _, _ => (none, 3)

end Travara

namespace Travara

/-- C4 counterexample: with a credential configured and both the geocode
and the current-conditions fetch succeeding, a forecast fetch that fails
by raising makes the whole summary `None` instead of returning a summary
with the forecast absent. -/
theorem c4_forecast_exception_kills_summary :
    get_weather_summary (some "k")
      ⟨.resp 200 [⟨1, 2⟩],
       .resp 200 ⟨some ⟨20, 50⟩, [⟨"clear sky"⟩], some ⟨some 3⟩⟩,
       .exn "timed out"⟩
      "Paris" = (none, 3) := by
  decide

/-- C4 (amended): no credential means `None` with zero requests; a
geocode raise, non-200 status or empty result means `None`; a
current-conditions raise or non-200 status means `None`; a forecast
RAISE also means `None`; only a forecast fetch that completes with a
non-200 status degrades gracefully, returning the summary with the
forecast field absent. -/
theorem c4_weather_summary_degradation (api_key : Option String)
    (f : WeatherFetches) (destination : String) :
    (envFalsy api_key = true →
      get_weather_summary api_key f destination = (none, 0)) ∧
    (∀ m, envFalsy api_key = false → f.geocode = .exn m →
      get_weather_summary api_key f destination = (none, 1)) ∧
    (∀ s b, envFalsy api_key = false → f.geocode = .resp s b → s ≠ 200 →
      get_weather_summary api_key f destination = (none, 1)) ∧
    (envFalsy api_key = false → f.geocode = .resp 200 [] →
      get_weather_summary api_key f destination = (none, 1)) ∧
    (∀ g gr m, envFalsy api_key = false → f.geocode = .resp 200 (g :: gr) →
      f.current = .exn m →
      get_weather_summary api_key f destination = (none, 2)) ∧
    (∀ g gr s b, envFalsy api_key = false → f.geocode = .resp 200 (g :: gr) →
      f.current = .resp s b → s ≠ 200 →
      get_weather_summary api_key f destination = (none, 2)) ∧
    (∀ g gr b m, envFalsy api_key = false → f.geocode = .resp 200 (g :: gr) →
      f.current = .resp 200 b → f.forecast = .exn m →
      (get_weather_summary api_key f destination).1 = none) ∧
    (∀ g gr b m w ws fs fb, envFalsy api_key = false →
      f.geocode = .resp 200 (g :: gr) →
      f.current = .resp 200 b → b.main = some m → b.weather = w :: ws →
      f.forecast = .resp fs fb → fs ≠ 200 →
      get_weather_summary api_key f destination =
        (some ⟨some ⟨some m.temp, some w.description, some m.humidity,
            some (match b.wind with
              | some wd => wd.speed.getD 0
              | none => 0)⟩,
          none, some destination⟩, 3)) := by
  obtain ⟨fg, fc, ff⟩ := f
  refine ⟨fun hk => ?_,
    fun m hk hg => ?_, fun s b hk hg hs => ?_, fun hk hg => ?_,
    fun g gr m hk hg hc => ?_, fun g gr s b hk hg hc hs => ?_,
    fun g gr b m hk hg hc hf => ?_,
    fun g gr b m w ws fs fb hk hg hc hm hw hf hs => ?_⟩
  · simp [get_weather_summary, hk]
  · subst hg; simp [get_weather_summary, hk]
  · subst hg; simp [get_weather_summary, hk, hs]
  · subst hg; simp [get_weather_summary, hk]
  · subst hg; subst hc; simp [get_weather_summary, hk]
  · subst hg; subst hc; simp [get_weather_summary, hk, hs]
  · subst hg; subst hc; subst hf; simp [get_weather_summary, hk]
  · subst hg; subst hc; subst hf
    simp [get_weather_summary, hk, hm, hw, hs]

/-- C4 witness: the missing-credential case and the graceful non-200
forecast case at concrete inputs. -/
theorem c4_weather_summary_degradation_witness :
    get_weather_summary none
      ⟨.resp 200 [⟨1, 2⟩],
       .resp 200 ⟨some ⟨20, 50⟩, [⟨"clear sky"⟩], some ⟨some 3⟩⟩,
       .resp 200 ⟨"fc"⟩⟩ "Paris" = (none, 0) ∧
    get_weather_summary (some "k")
      ⟨.resp 200 [⟨1, 2⟩],
       .resp 200 ⟨some ⟨20, 50⟩, [⟨"clear sky"⟩], some ⟨some 3⟩⟩,
       .resp 503 ⟨"fc"⟩⟩ "Paris" =
      (some ⟨some ⟨some 20, some "clear sky", some 50, some 3⟩,
        none, some "Paris"⟩, 3) :=
  ⟨(c4_weather_summary_degradation none
      ⟨.resp 200 [⟨1, 2⟩],
       .resp 200 ⟨some ⟨20, 50⟩, [⟨"clear sky"⟩], some ⟨some 3⟩⟩,
       .resp 200 ⟨"fc"⟩⟩ "Paris").1 rfl,
   (c4_weather_summary_degradation (some "k")
      ⟨.resp 200 [⟨1, 2⟩],
       .resp 200 ⟨some ⟨20, 50⟩, [⟨"clear sky"⟩], some ⟨some 3⟩⟩,
       .resp 503 ⟨"fc"⟩⟩ "Paris").2.2.2.2.2.2.2
     ⟨1, 2⟩ [] ⟨some ⟨20, 50⟩, [⟨"clear sky"⟩], some ⟨some 3⟩⟩ ⟨20, 50⟩
     ⟨"clear sky"⟩ [] 503 ⟨"fc"⟩ rfl rfl rfl rfl rfl rfl (by decide)⟩

end Travara

namespace Travara

/-! ## Weather formatter (`weather_service.py` lines 97-119) -/

/-- ASCII uppercasing of one character. -/
def pyToUpperChar (c : Char) : Char :=
  if 'a'.toNat ≤ c.toNat && c.toNat ≤ 'z'.toNat then Char.ofNat (c.toNat - 32)
  else c

/-- Worker for Python `str.title()`: uppercase an alphabetic character
following a non-alphabetic one, lowercase the other alphabetic ones. -/
def pyTitleGo : Bool → List Char → List Char
  | _, [] => []
  | prevAlpha, c :: cs =>
    (if c.isAlpha then (if prevAlpha then pyToLowerChar c else pyToUpperChar c)
     else c) :: pyTitleGo c.isAlpha cs

/-- Python `s.title()` on the ASCII strings this program manipulates. -/
def pyTitle (s : String) : String := String.mk (pyTitleGo false s.toList)

/-- The f-string conversion `{value}` of an optional numeric field read
with default `'N/A'`. -/
def naNum : Option Int → String
  | some n => toString n
  | none => "N/A"

/-- `WeatherService.format_weather_summary` (`weather_service.py` lines
97-119): `None` yields the unavailable text; otherwise the fixed
four-line block, substituting `'N/A'` for each missing field. -/
def format_weather_summary (weather_data : Option WeatherDict) : String :=
  match weather_data with
  | none => "Weather information unavailable."
  | some d =>
    let current := d.current.getD ⟨none, none, none, none⟩
    let location := d.location.getD "Unknown"
    "**Weather in " ++ location ++ ":**\n\n" ++
    "ğŸŒ¡ï¸ Temperature: " ++
      naNum current.temperature ++ "Â°C\n" ++
    "â˜ï¸ Conditions: " ++
      pyTitle (current.description.getD "N/A") ++ "\n" ++
    "ğŸ’§ Humidity: " ++ naNum current.humidity ++ "%\n" ++
    "ğŸ’¨ Wind Speed: " ++ naNum current.wind_speed ++ " m/s\n"

theorem leadsWith_append_left (r : List Char) :
    ∀ {pat l : List Char}, leadsWith pat l = true →
      leadsWith pat (l ++ r) = true
  | [], _, _ => rfl
  | p :: ps, [], h => by simp [leadsWith] at h
  | p :: ps, c :: cs, h => by
    simp only [leadsWith, Bool.and_eq_true, decide_eq_true_eq] at h ⊢
    exact ⟨h.1, leadsWith_append_left r h.2⟩

theorem subOccurs_append_left (r : List Char) :
    ∀ {pat l : List Char}, subOccurs pat l = true →
      subOccurs pat (l ++ r) = true
  | pat, [], h => by
    have hp : pat = [] := by
      cases pat with
      | nil => rfl
      | cons p ps => simp [subOccurs, leadsWith] at h
    subst hp
    cases r with
    | nil => rfl
    | cons c cs => simp [subOccurs, leadsWith]
  | pat, c :: cs, h => by
    simp only [subOccurs, Bool.or_eq_true] at h ⊢
    rcases h with h | h
    · exact Or.inl (leadsWith_append_left r h)
    · exact Or.inr (subOccurs_append_left r h)

/-- The formatted block, flattened to a right-nested character-list
chain with each field conversion exposed. -/
theorem format_some_data (cur : CurrentDict) (fc : Option ForecastData)
    (loc : Option String) :
    (format_weather_summary (some ⟨some cur, fc, loc⟩)).toList =
      "**Weather in ".toList ++ ((loc.getD "Unknown").toList ++
      (":**\n\n".toList ++
      ("ğŸŒ¡ï¸ Temperature: ".toList ++
      ((naNum cur.temperature).toList ++
      ("Â°C\n".toList ++
      ("â˜ï¸ Conditions: ".toList ++
      ((pyTitle (cur.description.getD "N/A")).toList ++
      ("\n".toList ++
      ("ğŸ’§ Humidity: ".toList ++
      ((naNum cur.humidity).toList ++
      ("%\n".toList ++
      ("ğŸ’¨ Wind Speed: ".toList ++
      ((naNum cur.wind_speed).toList ++
      " m/s\n".toList))))))))))))) := by
  simp [format_weather_summary, String.toList, List.append_assoc]

/-- C9: the weather formatter never fails: `None` yields the
unavailable text, and each missing current-conditions field is rendered
as the `N/A` placeholder inside the fixed-shape block. -/
theorem c9_format_weather_never_fails :
    format_weather_summary none = "Weather information unavailable." ∧
    (∀ desc hum wind fc loc,
      subOccurs "Temperature: N/A".toList
        (format_weather_summary
          (some ⟨some ⟨none, desc, hum, wind⟩, fc, loc⟩)).toList = true) ∧
    (∀ temp hum wind fc loc,
      subOccurs "Conditions: N/A".toList
        (format_weather_summary
          (some ⟨some ⟨temp, none, hum, wind⟩, fc, loc⟩)).toList = true) ∧
    (∀ temp desc wind fc loc,
      subOccurs "Humidity: N/A".toList
        (format_weather_summary
          (some ⟨some ⟨temp, desc, none, wind⟩, fc, loc⟩)).toList = true) ∧
    (∀ temp desc hum fc loc,
      subOccurs "Wind Speed: N/A".toList
        (format_weather_summary
          (some ⟨some ⟨temp, desc, hum, none⟩, fc, loc⟩)).toList = true) := by
  refine ⟨rfl, ?_, ?_, ?_, ?_⟩
  · intro desc hum wind fc loc
    rw [format_some_data]
    apply subOccurs_append_right
    apply subOccurs_append_right
    apply subOccurs_append_right
    rw [← List.append_assoc]
    apply subOccurs_append_left
    show subOccurs "Temperature: N/A".toList
      ("ğŸŒ¡ï¸ Temperature: ".toList ++ (naNum none).toList) = true
    decide
  · intro temp hum wind fc loc
    rw [format_some_data]
    apply subOccurs_append_right
    apply subOccurs_append_right
    apply subOccurs_append_right
    apply subOccurs_append_right
    apply subOccurs_append_right
    apply subOccurs_append_right
    rw [← List.append_assoc]
    apply subOccurs_append_left
    show subOccurs "Conditions: N/A".toList
      ("â˜ï¸ Conditions: ".toList ++
        (pyTitle ((none : Option String).getD "N/A")).toList) = true
    decide
  · intro temp desc wind fc loc
    rw [format_some_data]
    apply subOccurs_append_right
    apply subOccurs_append_right
    apply subOccurs_append_right
    apply subOccurs_append_right
    apply subOccurs_append_right
    apply subOccurs_append_right
    apply subOccurs_append_right
    apply subOccurs_append_right
    apply subOccurs_append_right
    rw [← List.append_assoc]
    apply subOccurs_append_left
    show subOccurs "Humidity: N/A".toList
      ("ğŸ’§ Humidity: ".toList ++ (naNum none).toList) = true
    decide
  · intro temp desc hum fc loc
    rw [format_some_data]
    apply subOccurs_append_right
    apply subOccurs_append_right
    apply subOccurs_append_right
    apply subOccurs_append_right
    apply subOccurs_append_right
    apply subOccurs_append_right
    apply subOccurs_append_right
    apply subOccurs_append_right
    apply subOccurs_append_right
    apply subOccurs_append_right
    apply subOccurs_append_right
    apply subOccurs_append_right
    rw [← List.append_assoc]
    apply subOccurs_append_left
    show subOccurs "Wind Speed: N/A".toList
      ("ğŸ’¨ Wind Speed: ".toList ++ (naNum none).toList) = true
    decide

end Travara

namespace Travara

/-- C8 witness: the agreement instantiated at a concrete trip with no
interests selected. -/
theorem c8_provider_prompts_agree_witness :
    openaiGenerateUserPrompt "New York" "Paris" "2026-05-01" "2026-05-08" 8
        "medium" [] "solo" =
      ollamaGenerateUserPrompt "New York" "Paris" "2026-05-01" "2026-05-08" 8
        "medium" [] "solo" ∧
    openaiInterestsStr [] = "general travel" :=
  let h := c8_provider_prompts_agree "New York" "Paris" "2026-05-01"
    "2026-05-08" 8 "medium" [] "solo"
  ⟨h.1, h.2.2.2.1⟩

/-- C9 witness: the formatter evaluated on absence and on a summary with
a missing temperature. -/
theorem c9_format_weather_never_fails_witness :
    format_weather_summary none = "Weather information unavailable." ∧
    subOccurs "Temperature: N/A".toList
      (format_weather_summary
        (some ⟨some ⟨none, some "clear sky", some 50, some 3⟩,
          none, some "Paris"⟩)).toList = true :=
  ⟨c9_format_weather_never_fails.1,
   c9_format_weather_never_fails.2.1 (some "clear sky") (some 50) (some 3)
     none (some "Paris")⟩

end Travara
